import Mathlib

/-!
Verification of the model-evaluation engine of the Runner Training
Progression System (`src/runner_training/models` and
`src/runner_training/utils/validators.py`), shallowly embedded over ℝ.

Python floats are modelled as real numbers; `math.log` is `Real.log`;
`x ** y` on a positive base is `Real.rpow`.  A Python function that
raises `ValueError` on a negative `week` argument is modelled as an
`Option`-returning function (`none` for the raise); functions that
raise at construction/validation time are modelled as `Except`
computations over a structured error type (the Python code raises
`ValueError` with a message; the numeric interpolation of the offending
value into the message is not modelled, only the fixed text).
-/

namespace RunnerTraining

/-- Error taxonomy of the engine: `unknownModelType` models the factory's
"Unknown model type: {tag}. Available: ..." `ValueError` (carrying the
offending tag and the list of valid tags), `invalidParameter` models the
construction/validation `ValueError`s (carrying the fixed message text). -/
inductive ModelError where
  | unknownModelType (given : String) (available : List String)
  | invalidParameter (msg : String)
deriving DecidableEq, Repr

/-- Field-for-field embedding of the `ModelParameters` dataclass
(`models/base.py`). -/
structure ModelParameters where
  target_mileage : ℝ
  starting_mileage : ℝ
  a_parameter : ℝ
  b_parameter : ℝ

/-- Embedding of `ModelParameters.__post_init__` (`models/base.py`):
constructing the dataclass raises `ValueError` if `target_mileage <= 0`
or `starting_mileage < 0`, otherwise yields the value object. -/
noncomputable def ModelParameters.post_init (target_mileage starting_mileage a_parameter b_parameter : ℝ) : Except ModelError ModelParameters :=
  if target_mileage ≤ 0 then
    .error (.invalidParameter "Target mileage must be positive")
  else if starting_mileage < 0 then
    .error (.invalidParameter "Starting mileage must be non-negative")
  else
    .ok ⟨target_mileage, starting_mileage, a_parameter, b_parameter⟩

namespace ExponentialModel

/-- Embedding of `ExponentialModel._validate_parameters`
(`models/exponential.py`): checks `0 < a < 1`, then `b > 0`, then
`starting < target`, raising `ValueError` at the first failure. -/
noncomputable def validate_parameters (p : ModelParameters) : Except ModelError Unit :=
  if ¬(0 < p.a_parameter ∧ p.a_parameter < 1) then
    .error (.invalidParameter "Parameter a must be in (0, 1)")
  else if p.b_parameter ≤ 0 then
    .error (.invalidParameter "Parameter b must be positive")
  else if p.starting_mileage ≥ p.target_mileage then
    .error (.invalidParameter "Starting mileage must be less than target mileage for exponential model")
  else
    .ok ()

/-- Validity of an `ExponentialModel`: the conjunction of the
`ModelParameters.__post_init__` checks and the model-specific
`_validate_parameters` checks — exactly the states in which a
constructed `ExponentialModel` object can exist. -/
def Valid (p : ModelParameters) : Prop :=
  0 < p.target_mileage ∧ 0 ≤ p.starting_mileage ∧
  0 < p.a_parameter ∧ p.a_parameter < 1 ∧ 0 < p.b_parameter ∧
  p.starting_mileage < p.target_mileage

/-- Embedding of `ExponentialModel.calculate_mileage`: raises (here:
`none`) if `week < 0`, otherwise returns
`T - (T - S) * a ** (week / b)`. -/
noncomputable def calculate_mileage (p : ModelParameters) (week : ℝ) : Option ℝ :=
  if week < 0 then none
  else some (p.target_mileage -
    (p.target_mileage - p.starting_mileage) *
      p.a_parameter ^ (week / p.b_parameter))

/-- Result type of `ExponentialModel.calculate_week`: the Python code
returns `None` ("no solution"), `float('inf')` (the unbounded marker),
or a finite float. -/
inductive WeekResult where
  | noSolution
  | unbounded
  | finite (week : ℝ)

/-- Embedding of `ExponentialModel.calculate_week`: `None` unless
`S <= mileage <= T`; the infinite marker at `mileage == T`; otherwise
`max 0 (b * log((T - mileage)/(T - S)) / log a)`, with the code's
defensive `ratio <= 0` guard kept in place. -/
noncomputable def calculate_week (p : ModelParameters) (mileage : ℝ) : WeekResult :=
  if ¬(p.starting_mileage ≤ mileage ∧ mileage ≤ p.target_mileage) then
    .noSolution
  else if mileage = p.target_mileage then
    .unbounded
  else if (p.target_mileage - mileage) / (p.target_mileage - p.starting_mileage) ≤ 0 then
    .noSolution
  else
    .finite (max 0 (p.b_parameter *
      Real.log ((p.target_mileage - mileage) / (p.target_mileage - p.starting_mileage)) /
      Real.log p.a_parameter))

/-- Embedding of `ExponentialModel.calculate_rate_of_change`: raises
(here: `none`) if `week < 0`, otherwise returns
`(-(T - S) / b) * a ** (week / b) * log a`. -/
noncomputable def calculate_rate_of_change (p : ModelParameters) (week : ℝ) : Option ℝ :=
  if week < 0 then none
  else some (-((p.target_mileage - p.starting_mileage) / p.b_parameter) *
    p.a_parameter ^ (week / p.b_parameter) * Real.log p.a_parameter)

/-- Embedding of constructing an `ExponentialModel` end to end:
`ModelParameters(...)` (its `__post_init__` checks) followed by the
model's `_validate_parameters`, as performed by
`BaseTrainingModel.__init__`. -/
noncomputable def create (target_mileage starting_mileage a_parameter b_parameter : ℝ) : Except ModelError ModelParameters :=
  match ModelParameters.post_init target_mileage starting_mileage a_parameter b_parameter with
  | .error e => .error e
  | .ok params =>
    match validate_parameters params with
    | .error e => .error e
    | .ok _ => .ok params

end ExponentialModel

namespace LinearModel

/-- Embedding of `LinearModel._validate_parameters` (`models/linear.py`):
checks `a > 0`, then `b > 0`, then `starting <= target`, raising
`ValueError` at the first failure. -/
noncomputable def validate_parameters (p : ModelParameters) : Except ModelError Unit :=
  if p.a_parameter ≤ 0 then
    .error (.invalidParameter "Parameter a must be positive for linear model")
  else if p.b_parameter ≤ 0 then
    .error (.invalidParameter "Parameter b must be positive")
  else if p.starting_mileage > p.target_mileage then
    .error (.invalidParameter "Starting mileage cannot exceed target mileage")
  else
    .ok ()

/-- Validity of a `LinearModel`: the conjunction of the
`ModelParameters.__post_init__` checks and the model-specific
`_validate_parameters` checks. -/
def Valid (p : ModelParameters) : Prop :=
  0 < p.target_mileage ∧ 0 ≤ p.starting_mileage ∧
  0 < p.a_parameter ∧ 0 < p.b_parameter ∧
  p.starting_mileage ≤ p.target_mileage

/-- Embedding of `LinearModel.calculate_mileage`: raises (here: `none`)
if `week < 0`, otherwise returns `min (S + (a/b) * week) T`. -/
noncomputable def calculate_mileage (p : ModelParameters) (week : ℝ) : Option ℝ :=
  if week < 0 then none
  else some (min (p.starting_mileage + p.a_parameter / p.b_parameter * week)
    p.target_mileage)

/-- Embedding of `LinearModel._get_plateau_week`: `0` when `S == T`,
otherwise `(T - S) / (a/b)`. -/
noncomputable def get_plateau_week (p : ModelParameters) : ℝ :=
  if p.starting_mileage = p.target_mileage then 0
  else (p.target_mileage - p.starting_mileage) / (p.a_parameter / p.b_parameter)

/-- Embedding of `LinearModel.calculate_week`: `None` unless
`S <= mileage <= T`; `0` at `mileage == S`; otherwise
`week = (mileage - S) / (a/b)`, returned when at or before the plateau
week, with the plateau week returned instead when past it and
`mileage == T`, and `None` when past it otherwise. -/
noncomputable def calculate_week (p : ModelParameters) (mileage : ℝ) : Option ℝ :=
  if ¬(p.starting_mileage ≤ mileage ∧ mileage ≤ p.target_mileage) then none
  else if mileage = p.starting_mileage then some 0
  else if (mileage - p.starting_mileage) / (p.a_parameter / p.b_parameter) ≤
      get_plateau_week p then
    some ((mileage - p.starting_mileage) / (p.a_parameter / p.b_parameter))
  else if mileage = p.target_mileage then some (get_plateau_week p)
  else none

/-- Embedding of `LinearModel.calculate_rate_of_change`: raises (here:
`none`) if `week < 0`, otherwise returns `a/b` strictly before the
plateau week and `0` at or after it. -/
noncomputable def calculate_rate_of_change (p : ModelParameters) (week : ℝ) : Option ℝ :=
  if week < 0 then none
  else some (if week < get_plateau_week p then p.a_parameter / p.b_parameter else 0)

/-- Embedding of constructing a `LinearModel` end to end:
`ModelParameters(...)` followed by the model's `_validate_parameters`. -/
noncomputable def create (target_mileage starting_mileage a_parameter b_parameter : ℝ) : Except ModelError ModelParameters :=
  match ModelParameters.post_init target_mileage starting_mileage a_parameter b_parameter with
  | .error e => .error e
  | .ok params =>
    match validate_parameters params with
    | .error e => .error e
    | .ok _ => .ok params

end LinearModel

/-- Discriminator for the two registered model variants, standing for
the two concrete classes in the factory's `_models` registry. -/
inductive ModelKind where
  | exponential
  | linear
deriving DecidableEq, Repr

/-- Embedding of Python's `str.lower()` (the tags here are ASCII):
lowercase every character. -/
def pyLower (s : String) : String := ⟨s.data.map Char.toLower⟩

namespace ModelFactory

/-- Embedding of the factory's `_models` registry (`models/factory.py`):
an ordered mapping from type tag to model variant. -/
def models : List (String × ModelKind) :=
  [("exponential", ModelKind.exponential), ("linear", ModelKind.linear)]

/-- Embedding of `ModelFactory.available_models`: the registry's keys in
order. -/
def available_models : List String := models.map Prod.fst

/-- Embedding of `ModelFactory.create`: lowercases the tag, rejects tags
outside the registry with the "Unknown model type" error (naming the
original tag and the available tags), then builds `ModelParameters`
(its `__post_init__` checks) and runs the selected variant's
`_validate_parameters`, returning the constructed model (variant tag
plus parameters) on success. -/
noncomputable def create (model_type : String)
    (target_mileage starting_mileage a_parameter b_parameter : ℝ) :
    Except ModelError (ModelKind × ModelParameters) :=
  let model_type_lower := pyLower model_type
  match models.lookup model_type_lower with
  | none => .error (.unknownModelType model_type available_models)
  | some kind =>
    match ModelParameters.post_init target_mileage starting_mileage a_parameter b_parameter with
    | .error e => .error e
    | .ok params =>
      match (match kind with
        | ModelKind.exponential => ExponentialModel.validate_parameters params
        | ModelKind.linear => LinearModel.validate_parameters params) with
      | .error e => .error e
      | .ok _ => .ok (kind, params)

end ModelFactory

namespace ParameterValidator

/-- Embedding of `ParameterValidator.validate_mileage_range`
(`utils/validators.py`): checks `target > 0`, `starting >= 0`, then the
model-specific range rule selected by exact string comparison on
`model_type`. -/
noncomputable def validate_mileage_range (starting target : ℝ)
    (model_type : String) : Except ModelError Unit :=
  if target ≤ 0 then
    .error (.invalidParameter "Target mileage must be positive")
  else if starting < 0 then
    .error (.invalidParameter "Starting mileage must be non-negative")
  else if model_type = "exponential" ∧ starting ≥ target then
    .error (.invalidParameter "For exponential model, starting must be less than target")
  else if model_type = "linear" ∧ starting > target then
    .error (.invalidParameter "For linear model, starting cannot exceed target")
  else
    .ok ()

/-- Embedding of `ParameterValidator.validate_model_parameters`
(`utils/validators.py`): checks `b > 0`, then the model-specific rule on
`a` selected by exact string comparison on `model_type`. -/
noncomputable def validate_model_parameters (a_param b_param : ℝ)
    (model_type : String) : Except ModelError Unit :=
  if b_param ≤ 0 then
    .error (.invalidParameter "Parameter b must be positive")
  else if model_type = "exponential" ∧ ¬(0 < a_param ∧ a_param < 1) then
    .error (.invalidParameter "For exponential model, parameter a must be in (0, 1)")
  else if model_type = "linear" ∧ a_param ≤ 0 then
    .error (.invalidParameter "For linear model, parameter a must be positive")
  else
    .ok ()

end ParameterValidator

/-- Success of an embedded fallible computation: it returns `ok` with
some value (the Python call returns without raising). -/
def Succeeds {ε α : Type} (r : Except ε α) : Prop := ∃ x, r = Except.ok x

end RunnerTraining

namespace RunnerTraining

open ExponentialModel in
/-- C3: for every valid ExponentialModel, `calculate_mileage 0` equals
`starting` exactly, and mileage is strictly increasing in the week and
strictly below the target at every finite week. -/
theorem exp_mileage_zero_and_strict_mono (p : ModelParameters)
    (hv : ExponentialModel.Valid p) (w1 w2 m1 m2 : ℝ)
    (h0 : 0 ≤ w1) (h12 : w1 < w2)
    (hm1 : ExponentialModel.calculate_mileage p w1 = some m1)
    (hm2 : ExponentialModel.calculate_mileage p w2 = some m2) :
    ExponentialModel.calculate_mileage p 0 = some p.starting_mileage ∧
    m1 < m2 ∧ m2 < p.target_mileage := by
  obtain ⟨hT, hS0, ha0, ha1, hb, hST⟩ := hv
  have hTS : 0 < p.target_mileage - p.starting_mileage := by linarith
  rw [ExponentialModel.calculate_mileage, if_neg (by linarith : ¬ w1 < 0)] at hm1
  rw [ExponentialModel.calculate_mileage, if_neg (by linarith : ¬ w2 < 0)] at hm2
  refine ⟨?_, ?_, ?_⟩
  · rw [ExponentialModel.calculate_mileage, if_neg (by norm_num : ¬ (0:ℝ) < 0)]
    rw [zero_div, Real.rpow_zero]
    norm_num
  · have hmono : p.a_parameter ^ (w2 / p.b_parameter) <
        p.a_parameter ^ (w1 / p.b_parameter) :=
      Real.rpow_lt_rpow_of_exponent_gt ha0 ha1 (by
        apply div_lt_div_of_pos_right h12 hb)
    have := Option.some.inj hm1
    have := Option.some.inj hm2
    nlinarith [hmono, hTS]
  · have hpos : 0 < p.a_parameter ^ (w2 / p.b_parameter) :=
      Real.rpow_pos_of_pos ha0 _
    have := Option.some.inj hm2
    nlinarith [hpos, hTS]

/-- C1: for every valid ExponentialModel, `calculate_week` returns
no-solution outside `[S, T]`, the unbounded marker exactly at the
target, and otherwise `b * ln((T - m)/(T - S)) / ln a` clamped to be
non-negative. -/
theorem exp_calculate_week_contract (p : ModelParameters)
    (hv : ExponentialModel.Valid p) (m : ℝ) :
    (m < p.starting_mileage ∨ p.target_mileage < m →
      ExponentialModel.calculate_week p m = .noSolution) ∧
    (m = p.target_mileage →
      ExponentialModel.calculate_week p m = .unbounded) ∧
    (p.starting_mileage ≤ m → m < p.target_mileage →
      ExponentialModel.calculate_week p m = .finite (max 0 (p.b_parameter *
        Real.log ((p.target_mileage - m) / (p.target_mileage - p.starting_mileage)) /
        Real.log p.a_parameter))) := by
  obtain ⟨hT, hS0, ha0, ha1, hb, hST⟩ := hv
  have hTS : 0 < p.target_mileage - p.starting_mileage := by linarith
  refine ⟨?_, ?_, ?_⟩
  · intro hcase
    rw [ExponentialModel.calculate_week, if_pos]
    push_neg
    intro h1
    rcases hcase with h | h
    · exact absurd h1 (not_le.mpr h)
    · exact h
  · intro hm
    rw [ExponentialModel.calculate_week,
      if_neg (not_not_intro ⟨by rw [hm]; linarith, by rw [hm]⟩),
      if_pos hm]
  · intro hSm hmT
    have hratio : 0 < (p.target_mileage - m) / (p.target_mileage - p.starting_mileage) :=
      div_pos (by linarith) hTS
    rw [ExponentialModel.calculate_week,
      if_neg (not_not_intro ⟨hSm, le_of_lt hmT⟩),
      if_neg (ne_of_lt hmT),
      if_neg (not_le.mpr hratio)]

/-- C2: for every valid ExponentialModel and finite week `w ≥ 0` whose
mileage is below the target, the inverse calculation recovers `w`
(exactly, over the reals — in particular within 1e-6). -/
theorem exp_round_trip (p : ModelParameters)
    (hv : ExponentialModel.Valid p) (w m : ℝ) (hw : 0 ≤ w)
    (hm : ExponentialModel.calculate_mileage p w = some m)
    (hmT : m < p.target_mileage) :
    ∃ wr, ExponentialModel.calculate_week p m = .finite wr ∧
      |wr - w| ≤ 1 / 1000000 := by
  obtain ⟨hT, hS0, ha0, ha1, hb, hST⟩ := hv
  have hTS : 0 < p.target_mileage - p.starting_mileage := by linarith
  rw [ExponentialModel.calculate_mileage, if_neg (not_lt.mpr hw)] at hm
  have hm' : m = p.target_mileage -
      (p.target_mileage - p.starting_mileage) *
        p.a_parameter ^ (w / p.b_parameter) := (Option.some.inj hm).symm
  have hd0 : 0 < p.a_parameter ^ (w / p.b_parameter) :=
    Real.rpow_pos_of_pos ha0 _
  have hd1 : p.a_parameter ^ (w / p.b_parameter) ≤ 1 :=
    Real.rpow_le_one ha0.le ha1.le (div_nonneg hw hb.le)
  have hSm : p.starting_mileage ≤ m := by nlinarith
  have hTm : p.target_mileage - m =
      (p.target_mileage - p.starting_mileage) *
        p.a_parameter ^ (w / p.b_parameter) := by
    rw [hm']; ring
  have hla : Real.log p.a_parameter ≠ 0 :=
    ne_of_lt (Real.log_neg ha0 ha1)
  refine ⟨w, ?_, by simp⟩
  rw [ExponentialModel.calculate_week,
    if_neg (not_not_intro ⟨hSm, le_of_lt hmT⟩),
    if_neg (ne_of_lt hmT)]
  rw [hTm, mul_div_cancel_left₀ _ (ne_of_gt hTS)]
  rw [if_neg (not_le.mpr hd0)]
  rw [Real.log_rpow ha0]
  have hweek : p.b_parameter * (w / p.b_parameter * Real.log p.a_parameter) /
      Real.log p.a_parameter = w := by
    field_simp
  rw [hweek, max_eq_right hw]

/-- C4: for every valid ExponentialModel, the rate of change is
strictly positive at every week `>= 0` and strictly decreasing: at any
two weeks `0 <= w1 < w2` both rates are positive and the later one is
strictly smaller. -/
theorem exp_rate_positive_and_decreasing (p : ModelParameters)
    (hv : ExponentialModel.Valid p) (w1 w2 r1 r2 : ℝ)
    (h1 : 0 ≤ w1) (h12 : w1 < w2)
    (hr1 : ExponentialModel.calculate_rate_of_change p w1 = some r1)
    (hr2 : ExponentialModel.calculate_rate_of_change p w2 = some r2) :
    0 < r1 ∧ 0 < r2 ∧ r2 < r1 := by
  obtain ⟨hT, hS0, ha0, ha1, hb, hST⟩ := hv
  have hTS : 0 < p.target_mileage - p.starting_mileage := by linarith
  rw [ExponentialModel.calculate_rate_of_change,
    if_neg (not_lt.mpr h1)] at hr1
  rw [ExponentialModel.calculate_rate_of_change,
    if_neg (not_lt.mpr (by linarith : (0:ℝ) ≤ w2))] at hr2
  have he1 := (Option.some.inj hr1).symm
  have he2 := (Option.some.inj hr2).symm
  have hd1 : 0 < p.a_parameter ^ (w1 / p.b_parameter) :=
    Real.rpow_pos_of_pos ha0 _
  have hd2 : 0 < p.a_parameter ^ (w2 / p.b_parameter) :=
    Real.rpow_pos_of_pos ha0 _
  have hmono : p.a_parameter ^ (w2 / p.b_parameter) <
      p.a_parameter ^ (w1 / p.b_parameter) :=
    Real.rpow_lt_rpow_of_exponent_gt ha0 ha1
      (div_lt_div_of_pos_right h12 hb)
  have hla : Real.log p.a_parameter < 0 := Real.log_neg ha0 ha1
  have hK : 0 < (p.target_mileage - p.starting_mileage) / p.b_parameter :=
    div_pos hTS hb
  have hC : 0 < -((p.target_mileage - p.starting_mileage) / p.b_parameter) *
      Real.log p.a_parameter := mul_pos_of_neg_of_neg (by linarith) hla
  refine ⟨?_, ?_, ?_⟩
  · rw [he1]; nlinarith [mul_pos hC hd1]
  · rw [he2]; nlinarith [mul_pos hC hd2]
  · rw [he1, he2]
    nlinarith [mul_pos hC (sub_pos.mpr hmono)]

/-- C5: for every valid LinearModel, the plateau week is `(T - S)/(a/b)`
(or `0` when `S = T`), and `calculate_week` returns no solution outside
`[S, T]`, `0` exactly at `S`, and otherwise `(m - S)/(a/b)` when that is
at or before the plateau week, the plateau week itself when past it with
`m = T`, and no solution when past it with `m ≠ T`. -/
theorem linear_calculate_week_contract (p : ModelParameters)
    (hv : LinearModel.Valid p) (m : ℝ) :
    LinearModel.get_plateau_week p =
      (if p.starting_mileage = p.target_mileage then 0
       else (p.target_mileage - p.starting_mileage) / (p.a_parameter / p.b_parameter)) ∧
    (m < p.starting_mileage ∨ p.target_mileage < m →
      LinearModel.calculate_week p m = none) ∧
    (m = p.starting_mileage → LinearModel.calculate_week p m = some 0) ∧
    (p.starting_mileage ≤ m → m ≤ p.target_mileage → m ≠ p.starting_mileage →
      ((m - p.starting_mileage) / (p.a_parameter / p.b_parameter) ≤
          LinearModel.get_plateau_week p →
        LinearModel.calculate_week p m =
          some ((m - p.starting_mileage) / (p.a_parameter / p.b_parameter))) ∧
      (LinearModel.get_plateau_week p <
          (m - p.starting_mileage) / (p.a_parameter / p.b_parameter) →
        (m = p.target_mileage →
          LinearModel.calculate_week p m = some (LinearModel.get_plateau_week p)) ∧
        (m ≠ p.target_mileage → LinearModel.calculate_week p m = none))) := by
  obtain ⟨hT, hS0, ha, hb, hST⟩ := hv
  refine ⟨rfl, ?_, ?_, ?_⟩
  · intro hcase
    rw [LinearModel.calculate_week, if_pos]
    push_neg
    intro h1
    rcases hcase with h | h
    · exact absurd h1 (not_le.mpr h)
    · exact h
  · intro hm
    rw [LinearModel.calculate_week,
      if_neg (not_not_intro ⟨by rw [hm], by rw [hm]; exact hST⟩),
      if_pos hm]
  · intro hSm hmT hne
    refine ⟨?_, ?_⟩
    · intro hle
      rw [LinearModel.calculate_week,
        if_neg (not_not_intro ⟨hSm, hmT⟩), if_neg hne, if_pos hle]
    · intro hgt
      refine ⟨?_, ?_⟩
      · intro hmt
        rw [LinearModel.calculate_week,
          if_neg (not_not_intro ⟨hSm, hmT⟩), if_neg hne,
          if_neg (not_le.mpr hgt), if_pos hmt]
      · intro hmt
        rw [LinearModel.calculate_week,
          if_neg (not_not_intro ⟨hSm, hmT⟩), if_neg hne,
          if_neg (not_le.mpr hgt), if_neg hmt]

/-- C6: for every valid LinearModel and week `>= 0`, the rate of change
is the constant `a/b` strictly before the plateau week and exactly `0`
at or after the plateau week (in particular `0` at the plateau week
itself). -/
theorem linear_rate_of_change_step (p : ModelParameters)
    (_hv : LinearModel.Valid p) (w : ℝ) (hw : 0 ≤ w) :
    (w < LinearModel.get_plateau_week p →
      LinearModel.calculate_rate_of_change p w =
        some (p.a_parameter / p.b_parameter)) ∧
    (LinearModel.get_plateau_week p ≤ w →
      LinearModel.calculate_rate_of_change p w = some 0) := by
  refine ⟨?_, ?_⟩
  · intro h
    rw [LinearModel.calculate_rate_of_change, if_neg (not_lt.mpr hw),
      if_pos h]
  · intro h
    rw [LinearModel.calculate_rate_of_change, if_neg (not_lt.mpr hw),
      if_neg (not_lt.mpr h)]

/-- C9: for every valid LinearModel and week `w` between `0` and the
plateau week, the inverse calculation recovers `w` exactly:
`calculate_week (calculate_mileage w) = w`. -/
theorem linear_round_trip (p : ModelParameters)
    (hv : LinearModel.Valid p) (w m : ℝ) (h0 : 0 ≤ w)
    (hwp : w ≤ LinearModel.get_plateau_week p)
    (hm : LinearModel.calculate_mileage p w = some m) :
    LinearModel.calculate_week p m = some w := by
  obtain ⟨hT, hS0, ha, hb, hST⟩ := hv
  have hrate : 0 < p.a_parameter / p.b_parameter := div_pos ha hb
  rw [LinearModel.calculate_mileage, if_neg (not_lt.mpr h0)] at hm
  have hm' := (Option.some.inj hm).symm
  by_cases hSeq : p.starting_mileage = p.target_mileage
  · have hplat : LinearModel.get_plateau_week p = 0 := by
      rw [LinearModel.get_plateau_week, if_pos hSeq]
    have hw0 : w = 0 := le_antisymm (hplat ▸ hwp) h0
    have hmS : m = p.starting_mileage := by
      rw [hm', hw0, hSeq]
      simp
    rw [LinearModel.calculate_week,
      if_neg (not_not_intro ⟨le_of_eq hmS.symm, by rw [hmS]; exact hST⟩),
      if_pos hmS, hw0]
  · have hSlt : p.starting_mileage < p.target_mileage := lt_of_le_of_ne hST hSeq
    have hplat : LinearModel.get_plateau_week p =
        (p.target_mileage - p.starting_mileage) / (p.a_parameter / p.b_parameter) := by
      rw [LinearModel.get_plateau_week, if_neg hSeq]
    have hcap : p.starting_mileage + p.a_parameter / p.b_parameter * w ≤
        p.target_mileage := by
      have := (le_div_iff₀ hrate).mp (hplat ▸ hwp)
      linarith
    have hmval : m = p.starting_mileage + p.a_parameter / p.b_parameter * w := by
      rw [hm', min_eq_left hcap]
    by_cases hw0 : w = 0
    · have hmS : m = p.starting_mileage := by rw [hmval, hw0]; ring
      rw [LinearModel.calculate_week,
        if_neg (not_not_intro ⟨le_of_eq hmS.symm, by rw [hmS]; exact hST⟩),
        if_pos hmS, hw0]
    · have hwpos : 0 < w := lt_of_le_of_ne h0 (Ne.symm hw0)
      have hmgt : p.starting_mileage < m := by
        rw [hmval]; nlinarith
      have hwk : (m - p.starting_mileage) / (p.a_parameter / p.b_parameter) = w := by
        rw [hmval]
        field_simp
        ring
      rw [LinearModel.calculate_week,
        if_neg (not_not_intro ⟨le_of_lt hmgt, by rw [hmval]; exact hcap⟩),
        if_neg (ne_of_gt hmgt), hwk, if_pos hwp]

/-- C7: with `starting == target` (and `target > 0`, `a > 0`, `b > 0`),
constructing an ExponentialModel fails with an invalid-parameter error,
while constructing a LinearModel succeeds and its plateau week is `0`. -/
theorem exp_rejects_start_eq_target_linear_accepts (T a b : ℝ)
    (hT : 0 < T) (ha : 0 < a) (hb : 0 < b) :
    (∃ msg, ExponentialModel.create T T a b =
      .error (.invalidParameter msg)) ∧
    LinearModel.create T T a b = .ok ⟨T, T, a, b⟩ ∧
    LinearModel.get_plateau_week ⟨T, T, a, b⟩ = 0 := by
  have hpi : ModelParameters.post_init T T a b = .ok ⟨T, T, a, b⟩ := by
    rw [ModelParameters.post_init, if_neg (not_le.mpr hT),
      if_neg (not_lt.mpr (le_of_lt hT))]
  refine ⟨?_, ?_, ?_⟩
  · by_cases ha1 : a < 1
    · refine ⟨"Starting mileage must be less than target mileage for exponential model", ?_⟩
      have hev : ExponentialModel.validate_parameters ⟨T, T, a, b⟩ =
          .error (.invalidParameter "Starting mileage must be less than target mileage for exponential model") := by
        rw [ExponentialModel.validate_parameters,
          if_neg (not_not_intro ⟨ha, ha1⟩), if_neg (not_le.mpr hb),
          if_pos (le_refl T)]
      simp only [ExponentialModel.create, hpi, hev]
    · refine ⟨"Parameter a must be in (0, 1)", ?_⟩
      have hev : ExponentialModel.validate_parameters ⟨T, T, a, b⟩ =
          .error (.invalidParameter "Parameter a must be in (0, 1)") := by
        rw [ExponentialModel.validate_parameters,
          if_pos (fun h => ha1 h.2)]
      simp only [ExponentialModel.create, hpi, hev]
  · have hlv : LinearModel.validate_parameters ⟨T, T, a, b⟩ = .ok () := by
      rw [LinearModel.validate_parameters, if_neg (not_le.mpr ha),
        if_neg (not_le.mpr hb), if_neg (lt_irrefl T)]
    simp only [LinearModel.create, hpi, hlv]
  · rw [LinearModel.get_plateau_week, if_pos rfl]

lemma models_lookup_exponential :
    ModelFactory.models.lookup "exponential" = some ModelKind.exponential := by
  decide

lemma models_lookup_linear :
    ModelFactory.models.lookup "linear" = some ModelKind.linear := by
  decide

lemma models_lookup_none (s : String) (h1 : s ≠ "exponential")
    (h2 : s ≠ "linear") : ModelFactory.models.lookup s = none := by
  simp [ModelFactory.models, List.lookup, h1, h2]
  rw [beq_eq_false_iff_ne.mpr h1, beq_eq_false_iff_ne.mpr h2]

lemma pyLower_exponential : pyLower "exponential" = "exponential" := by decide

lemma pyLower_linear : pyLower "linear" = "linear" := by decide

/-- C8: `ModelFactory.create` validates the tag case-insensitively
against the closed registry: a tag whose lowercase form is neither
`exponential` nor `linear` fails with the unknown-model-type error
naming the tag and listing the valid tags, and a tag whose lowercase
form matches gives the same result as the lowercase tag. -/
theorem factory_create_case_insensitive (model_type : String) (T S a b : ℝ) :
    (pyLower model_type ≠ "exponential" → pyLower model_type ≠ "linear" →
      ModelFactory.create model_type T S a b =
        .error (.unknownModelType model_type ["exponential", "linear"])) ∧
    (pyLower model_type = "exponential" →
      ModelFactory.create model_type T S a b =
        ModelFactory.create "exponential" T S a b) ∧
    (pyLower model_type = "linear" →
      ModelFactory.create model_type T S a b =
        ModelFactory.create "linear" T S a b) := by
  have hav : ModelFactory.available_models = ["exponential", "linear"] := by decide
  refine ⟨?_, ?_, ?_⟩
  · intro h1 h2
    have hlk := models_lookup_none (pyLower model_type) h1 h2
    simp only [ModelFactory.create, hlk, hav]
  · intro h
    simp only [ModelFactory.create, h, pyLower_exponential,
      models_lookup_exponential]
  · intro h
    simp only [ModelFactory.create, h, pyLower_linear, models_lookup_linear]

lemma succeeds_error {ε α : Type} (e : ε) :
    ¬ Succeeds (Except.error e : Except ε α) := by
  rintro ⟨x, hx⟩
  exact Except.noConfusion hx

lemma succeeds_ok {ε α : Type} (x : α) :
    Succeeds (Except.ok x : Except ε α) := ⟨x, rfl⟩

lemma vmr_exponential_iff (S T : ℝ) :
    Succeeds (ParameterValidator.validate_mileage_range S T "exponential") ↔
    (0 < T ∧ 0 ≤ S ∧ S < T) := by
  rw [ParameterValidator.validate_mileage_range]
  split_ifs with h1 h2 h3 h4
  · exact iff_of_false (succeeds_error _) (by rintro ⟨hT, _, _⟩; linarith)
  · exact iff_of_false (succeeds_error _) (by rintro ⟨_, hS, _⟩; linarith)
  · exact iff_of_false (succeeds_error _)
      (by rintro ⟨_, _, hST⟩; have := h3.2; linarith)
  · exact absurd h4.1 (by decide)
  · exact iff_of_true (succeeds_ok _)
      ⟨by linarith, by linarith, not_le.mp (fun hle => h3 ⟨rfl, hle⟩)⟩

lemma vmr_linear_iff (S T : ℝ) :
    Succeeds (ParameterValidator.validate_mileage_range S T "linear") ↔
    (0 < T ∧ 0 ≤ S ∧ S ≤ T) := by
  rw [ParameterValidator.validate_mileage_range]
  split_ifs with h1 h2 h3 h4
  · exact iff_of_false (succeeds_error _) (by rintro ⟨hT, _, _⟩; linarith)
  · exact iff_of_false (succeeds_error _) (by rintro ⟨_, hS, _⟩; linarith)
  · exact absurd h3.1 (by decide)
  · exact iff_of_false (succeeds_error _)
      (by rintro ⟨_, _, hST⟩; have := h4.2; linarith)
  · exact iff_of_true (succeeds_ok _)
      ⟨by linarith, by linarith, not_lt.mp (fun hgt => h4 ⟨rfl, hgt⟩)⟩

lemma vmp_exponential_iff (a b : ℝ) :
    Succeeds (ParameterValidator.validate_model_parameters a b "exponential") ↔
    (0 < b ∧ 0 < a ∧ a < 1) := by
  rw [ParameterValidator.validate_model_parameters]
  split_ifs with h1 h2 h3
  · exact iff_of_false (succeeds_error _) (by rintro ⟨hb, _, _⟩; linarith)
  · exact iff_of_false (succeeds_error _)
      (by rintro ⟨_, ha0, ha1⟩; exact h2.2 ⟨ha0, ha1⟩)
  · exact absurd h3.1 (by decide)
  · have ha : 0 < a ∧ a < 1 := by
      by_contra hc
      exact h2 ⟨rfl, hc⟩
    exact iff_of_true (succeeds_ok _) ⟨by linarith, ha.1, ha.2⟩

lemma vmp_linear_iff (a b : ℝ) :
    Succeeds (ParameterValidator.validate_model_parameters a b "linear") ↔
    (0 < b ∧ 0 < a) := by
  rw [ParameterValidator.validate_model_parameters]
  split_ifs with h1 h2 h3
  · exact iff_of_false (succeeds_error _) (by rintro ⟨hb, _⟩; linarith)
  · exact absurd h2.1 (by decide)
  · exact iff_of_false (succeeds_error _)
      (by rintro ⟨_, ha⟩; have := h3.2; linarith)
  · exact iff_of_true (succeeds_ok _)
      ⟨by linarith, not_le.mp (fun hle => h3 ⟨rfl, hle⟩)⟩

lemma create_exponential_ok_iff (T S a b : ℝ) :
    Succeeds (ModelFactory.create "exponential" T S a b) ↔
    (0 < T ∧ 0 ≤ S ∧ 0 < a ∧ a < 1 ∧ 0 < b ∧ S < T) := by
  by_cases h1 : T ≤ 0
  · have hpi : ModelParameters.post_init T S a b =
        .error (.invalidParameter "Target mileage must be positive") := by
      rw [ModelParameters.post_init, if_pos h1]
    simp only [ModelFactory.create, pyLower_exponential,
      models_lookup_exponential, hpi]
    exact iff_of_false (succeeds_error _) (by rintro ⟨hT, _⟩; linarith)
  by_cases h2 : S < 0
  · have hpi : ModelParameters.post_init T S a b =
        .error (.invalidParameter "Starting mileage must be non-negative") := by
      rw [ModelParameters.post_init, if_neg h1, if_pos h2]
    simp only [ModelFactory.create, pyLower_exponential,
      models_lookup_exponential, hpi]
    exact iff_of_false (succeeds_error _) (by rintro ⟨_, hS, _⟩; linarith)
  have hpi : ModelParameters.post_init T S a b = .ok ⟨T, S, a, b⟩ := by
    rw [ModelParameters.post_init, if_neg h1, if_neg h2]
  simp only [ModelFactory.create, pyLower_exponential,
    models_lookup_exponential, hpi, ExponentialModel.validate_parameters]
  split_ifs with h3 h4 h5
  · exact iff_of_false (succeeds_error _)
      (by rintro ⟨_, _, _, _, hb, _⟩; linarith)
  · exact iff_of_false (succeeds_error _)
      (by rintro ⟨_, _, _, _, _, hST⟩; have : T ≤ S := h5; linarith)
  · exact iff_of_true (succeeds_ok _)
      ⟨by linarith, by linarith, h3.1, h3.2, not_le.mp h4, not_le.mp h5⟩
  · exact iff_of_false (succeeds_error _)
      (by rintro ⟨_, _, ha0, ha1, _⟩; exact h3 ⟨ha0, ha1⟩)

lemma create_linear_ok_iff (T S a b : ℝ) :
    Succeeds (ModelFactory.create "linear" T S a b) ↔
    (0 < T ∧ 0 ≤ S ∧ 0 < a ∧ 0 < b ∧ S ≤ T) := by
  by_cases h1 : T ≤ 0
  · have hpi : ModelParameters.post_init T S a b =
        .error (.invalidParameter "Target mileage must be positive") := by
      rw [ModelParameters.post_init, if_pos h1]
    simp only [ModelFactory.create, pyLower_linear, models_lookup_linear, hpi]
    exact iff_of_false (succeeds_error _) (by rintro ⟨hT, _⟩; linarith)
  by_cases h2 : S < 0
  · have hpi : ModelParameters.post_init T S a b =
        .error (.invalidParameter "Starting mileage must be non-negative") := by
      rw [ModelParameters.post_init, if_neg h1, if_pos h2]
    simp only [ModelFactory.create, pyLower_linear, models_lookup_linear, hpi]
    exact iff_of_false (succeeds_error _) (by rintro ⟨_, hS, _⟩; linarith)
  have hpi : ModelParameters.post_init T S a b = .ok ⟨T, S, a, b⟩ := by
    rw [ModelParameters.post_init, if_neg h1, if_neg h2]
  simp only [ModelFactory.create, pyLower_linear, models_lookup_linear, hpi,
    LinearModel.validate_parameters]
  split_ifs with h3 h4 h5
  · exact iff_of_false (succeeds_error _)
      (by rintro ⟨_, _, ha, _⟩; linarith)
  · exact iff_of_false (succeeds_error _)
      (by rintro ⟨_, _, _, hb, _⟩; linarith)
  · exact iff_of_false (succeeds_error _)
      (by rintro ⟨_, _, _, _, hST⟩; have : S > T := h5; linarith)
  · exact iff_of_true (succeeds_ok _)
      ⟨by linarith, by linarith, not_le.mp h3, not_le.mp h4, not_lt.mp h5⟩

/-- C10: for each registered kind, the standalone pre-flight validators
(`validate_mileage_range` and `validate_model_parameters`) both succeed
exactly when `ModelFactory.create` succeeds on the same inputs. -/
theorem validators_match_factory (kind : String) (T S a b : ℝ)
    (hk : kind = "exponential" ∨ kind = "linear") :
    (Succeeds (ParameterValidator.validate_mileage_range S T kind) ∧
     Succeeds (ParameterValidator.validate_model_parameters a b kind)) ↔
    Succeeds (ModelFactory.create kind T S a b) := by
  rcases hk with h | h <;> subst h
  · rw [vmr_exponential_iff, vmp_exponential_iff, create_exponential_ok_iff]
    tauto
  · rw [vmr_linear_iff, vmp_linear_iff, create_linear_ok_iff]
    tauto

lemma exp_params_valid : ExponentialModel.Valid ⟨50, 10, 1/2, 4⟩ := by
  refine ⟨by norm_num, by norm_num, by norm_num, by norm_num, by norm_num, by norm_num⟩

lemma linear_params_valid : LinearModel.Valid ⟨50, 10, 2, 1⟩ := by
  refine ⟨by norm_num, by norm_num, by norm_num, by norm_num, by norm_num⟩

lemma linear_params_plateau : LinearModel.get_plateau_week ⟨50, 10, 2, 1⟩ = 20 := by
  rw [LinearModel.get_plateau_week, if_neg (by norm_num)]
  norm_num

lemma exp_mileage_at_zero :
    ExponentialModel.calculate_mileage ⟨50, 10, 1/2, 4⟩ 0 = some 10 := by
  rw [ExponentialModel.calculate_mileage, if_neg (by norm_num)]
  norm_num

lemma exp_mileage_at_four :
    ExponentialModel.calculate_mileage ⟨50, 10, 1/2, 4⟩ 4 = some 30 := by
  rw [ExponentialModel.calculate_mileage, if_neg (by norm_num)]
  have h4 : ((4:ℝ) / 4) = 1 := by norm_num
  simp only [h4, Real.rpow_one]
  norm_num

/-- Witness for C1 at the concrete model `(target 50, starting 10,
a 1/2, b 4)` and `mileage = 50`: the unbounded marker is returned. -/
theorem exp_calculate_week_contract_witness :
    ExponentialModel.Valid ⟨50, 10, 1/2, 4⟩ ∧
    ExponentialModel.calculate_week ⟨50, 10, 1/2, 4⟩ 50 = .unbounded :=
  ⟨exp_params_valid,
    (exp_calculate_week_contract ⟨50, 10, 1/2, 4⟩ exp_params_valid 50).2.1 rfl⟩

/-- Witness for C2 at the concrete model `(50, 10, 1/2, 4)` and
`w = 4`, whose mileage is `30`. -/
theorem exp_round_trip_witness :
    ExponentialModel.Valid ⟨50, 10, 1/2, 4⟩ ∧
    ExponentialModel.calculate_mileage ⟨50, 10, 1/2, 4⟩ 4 = some 30 ∧
    (∃ wr, ExponentialModel.calculate_week ⟨50, 10, 1/2, 4⟩ 30 = .finite wr ∧
      |wr - 4| ≤ 1 / 1000000) :=
  ⟨exp_params_valid, exp_mileage_at_four,
    exp_round_trip ⟨50, 10, 1/2, 4⟩ exp_params_valid 4 30 (by norm_num)
      exp_mileage_at_four (show (30:ℝ) < 50 by norm_num)⟩

/-- Witness for C3 at the concrete model `(50, 10, 1/2, 4)` with
`w1 = 0`, `w2 = 4`: `M(0) = 10 < M(4) = 30 < 50`. -/
theorem exp_mileage_zero_and_strict_mono_witness :
    ExponentialModel.Valid ⟨50, 10, 1/2, 4⟩ ∧
    ExponentialModel.calculate_mileage ⟨50, 10, 1/2, 4⟩ 0 = some 10 ∧
    ExponentialModel.calculate_mileage ⟨50, 10, 1/2, 4⟩ 4 = some 30 ∧
    ((10:ℝ) < 30 ∧ (30:ℝ) < 50) :=
  ⟨exp_params_valid, exp_mileage_at_zero, exp_mileage_at_four,
    (exp_mileage_zero_and_strict_mono ⟨50, 10, 1/2, 4⟩ exp_params_valid
      0 4 10 30 le_rfl (by norm_num) exp_mileage_at_zero exp_mileage_at_four).2⟩

lemma exp_rate_at_zero :
    ExponentialModel.calculate_rate_of_change ⟨50, 10, 1/2, 4⟩ 0 =
      some (-10 * Real.log (1/2)) := by
  rw [ExponentialModel.calculate_rate_of_change, if_neg (by norm_num)]
  norm_num

lemma exp_rate_at_four :
    ExponentialModel.calculate_rate_of_change ⟨50, 10, 1/2, 4⟩ 4 =
      some (-5 * Real.log (1/2)) := by
  rw [ExponentialModel.calculate_rate_of_change, if_neg (by norm_num)]
  have h4 : ((4:ℝ) / 4) = 1 := by norm_num
  simp only [h4, Real.rpow_one]
  norm_num

/-- Witness for C4 at the concrete model `(50, 10, 1/2, 4)` with
`w1 = 0`, `w2 = 4`: both rates positive and the rate at week 4 smaller. -/
theorem exp_rate_positive_and_decreasing_witness :
    ExponentialModel.Valid ⟨50, 10, 1/2, 4⟩ ∧
    ExponentialModel.calculate_rate_of_change ⟨50, 10, 1/2, 4⟩ 0 =
      some (-10 * Real.log (1/2)) ∧
    ExponentialModel.calculate_rate_of_change ⟨50, 10, 1/2, 4⟩ 4 =
      some (-5 * Real.log (1/2)) ∧
    (0 < -10 * Real.log (1/2) ∧ 0 < -5 * Real.log (1/2) ∧
      -5 * Real.log (1/2) < -10 * Real.log (1/2)) :=
  ⟨exp_params_valid, exp_rate_at_zero, exp_rate_at_four,
    exp_rate_positive_and_decreasing ⟨50, 10, 1/2, 4⟩ exp_params_valid
      0 4 (-10 * Real.log (1/2)) (-5 * Real.log (1/2)) le_rfl (by norm_num)
      exp_rate_at_zero exp_rate_at_four⟩

/-- Witness for C5 at the concrete model `(50, 10, 2, 1)` and
`mileage = 30`: the computed week `(30-10)/(2/1) = 10` is at or before
the plateau week `20` and is returned. -/
theorem linear_calculate_week_contract_witness :
    LinearModel.Valid ⟨50, 10, 2, 1⟩ ∧
    LinearModel.calculate_week ⟨50, 10, 2, 1⟩ 30 = some ((30 - 10) / (2 / 1)) :=
  ⟨linear_params_valid,
    ((linear_calculate_week_contract ⟨50, 10, 2, 1⟩ linear_params_valid 30).2.2.2
      (by norm_num) (by norm_num) (by norm_num)).1
      (by rw [linear_params_plateau]; norm_num)⟩

/-- Witness for C6 at the concrete model `(50, 10, 2, 1)` and
`week = 25`, past the plateau week `20`: the rate is `0`. -/
theorem linear_rate_of_change_step_witness :
    LinearModel.Valid ⟨50, 10, 2, 1⟩ ∧ (0:ℝ) ≤ 25 ∧
    LinearModel.calculate_rate_of_change ⟨50, 10, 2, 1⟩ 25 = some 0 :=
  ⟨linear_params_valid, by norm_num,
    (linear_rate_of_change_step ⟨50, 10, 2, 1⟩ linear_params_valid 25
      (by norm_num)).2 (by rw [linear_params_plateau]; norm_num)⟩

/-- Witness for C7 at `target = starting = 50`, `a = 1/2`, `b = 4`. -/
theorem exp_rejects_start_eq_target_linear_accepts_witness :
    ((0:ℝ) < 50 ∧ (0:ℝ) < 1/2 ∧ (0:ℝ) < 4) ∧
    ((∃ msg, ExponentialModel.create 50 50 (1/2) 4 =
      .error (.invalidParameter msg)) ∧
    LinearModel.create 50 50 (1/2) 4 = .ok ⟨50, 50, 1/2, 4⟩ ∧
    LinearModel.get_plateau_week ⟨50, 50, 1/2, 4⟩ = 0) :=
  ⟨⟨by norm_num, by norm_num, by norm_num⟩,
    exp_rejects_start_eq_target_linear_accepts 50 (1/2) 4
      (by norm_num) (by norm_num) (by norm_num)⟩

/-- Witness for C8 at the tag `"EXPONENTIAL"`: lowercasing matches the
registry and the result agrees with the lowercase tag. -/
theorem factory_create_case_insensitive_witness :
    pyLower "EXPONENTIAL" = "exponential" ∧
    ModelFactory.create "EXPONENTIAL" 50 10 (8/10) 4 =
      ModelFactory.create "exponential" 50 10 (8/10) 4 :=
  ⟨by decide,
    (factory_create_case_insensitive "EXPONENTIAL" 50 10 (8/10) 4).2.1 (by decide)⟩

lemma linear_mileage_at_five :
    LinearModel.calculate_mileage ⟨50, 10, 2, 1⟩ 5 = some 20 := by
  rw [LinearModel.calculate_mileage, if_neg (by norm_num)]
  norm_num

/-- Witness for C9 at the concrete model `(50, 10, 2, 1)` and `w = 5`
(before the plateau week `20`): `M(5) = 20` and the inverse recovers 5. -/
theorem linear_round_trip_witness :
    LinearModel.Valid ⟨50, 10, 2, 1⟩ ∧
    LinearModel.calculate_mileage ⟨50, 10, 2, 1⟩ 5 = some 20 ∧
    LinearModel.calculate_week ⟨50, 10, 2, 1⟩ 20 = some 5 :=
  ⟨linear_params_valid, linear_mileage_at_five,
    linear_round_trip ⟨50, 10, 2, 1⟩ linear_params_valid 5 20 (by norm_num)
      (by rw [linear_params_plateau]; norm_num) linear_mileage_at_five⟩

/-- Witness for C10 at kind `"exponential"` with parameters
`(50, 10, 1/2, 4)`. -/
theorem validators_match_factory_witness :
    ("exponential" = "exponential" ∨ "exponential" = "linear") ∧
    ((Succeeds (ParameterValidator.validate_mileage_range 10 50 "exponential") ∧
      Succeeds (ParameterValidator.validate_model_parameters (1/2) 4 "exponential")) ↔
     Succeeds (ModelFactory.create "exponential" 50 10 (1/2) 4)) :=
  ⟨Or.inl rfl,
    validators_match_factory "exponential" 50 10 (1/2) 4 (Or.inl rfl)⟩
